import Mathlib

/-!
Verification of the weather acquisition subsystem of PiWeatherClock.

The definitions below are a shallow embedding of the Python sources:
* `src/models/weather_data.py` (condition classification, domain records),
* `src/services/weather.py` (retry loop, parsers, cache fallback),
* `src/gui/display.py` (refresh scheduling in the Tk event loop).

Modelling conventions: `datetime.now()` becomes an explicit `now : Nat`
parameter (seconds); JSON numbers that are only passed through are `Int`;
a JSON object is a structure whose fields are `Option`s (`dict.get`);
Python exceptions become `Except` values, distinguishing the service's
own typed error from an uncaught `KeyError`.
-/

namespace PiWeatherClock

/-- Simplified weather condition categories (`WeatherCondition` enum). -/
inductive WeatherCondition where
  | sunny
  | cloudy
  | rain
  | snow
deriving DecidableEq, Repr

/-- `WeatherCondition.from_wmo_code`: map a WMO weather code to a
simplified condition.  Codes 0,1 are sunny; 2,3,45,48 cloudy;
71,73,75,77,85,86 snow; everything else rain. -/
def WeatherCondition.from_wmo_code (code : Int) : WeatherCondition :=
  let SUNNY_CODES : List Int := [0, 1]
  let CLOUDY_CODES : List Int := [2, 3, 45, 48]
  let SNOW_CODES : List Int := [71, 73, 75, 77, 85, 86]
  if code ∈ SUNNY_CODES then .sunny
  else if code ∈ CLOUDY_CODES then .cloudy
  else if code ∈ SNOW_CODES then .snow
  else .rain

/-- A calendar date (Python `datetime.date`). -/
structure Date where
  year : Nat
  month : Nat
  day : Nat
deriving DecidableEq, Repr, Inhabited

/-- Gregorian leap-year rule, as used by `datetime.date` validation. -/
def isLeapYear (y : Nat) : Bool :=
  (y % 4 == 0 && y % 100 != 0) || y % 400 == 0

/-- Number of days in a month, for `datetime.date` validation. -/
def daysInMonth (y m : Nat) : Nat :=
  if m = 2 then (if isLeapYear y then 29 else 28)
  else if m = 4 ∨ m = 6 ∨ m = 9 ∨ m = 11 then 30
  else 31

/-- Value of a decimal digit character, `none` on a non-digit. -/
def digitVal (c : Char) : Option Nat :=
  if c.isDigit then some (c.toNat - 48) else none

/-- Python `date.fromisoformat`, restricted to the provider's
`YYYY-MM-DD` form: any other shape, a non-digit, or an out-of-range
month or day raises `ValueError`, modelled as `none`. -/
def fromisoformat (s : String) : Option Date :=
  match s.toList with
  | [y1, y2, y3, y4, sep1, m1, m2, sep2, d1, d2] =>
    if sep1 = '-' ∧ sep2 = '-' then
      match digitVal y1, digitVal y2, digitVal y3, digitVal y4,
            digitVal m1, digitVal m2, digitVal d1, digitVal d2 with
      | some a, some b, some c, some d, some e, some f, some g, some h =>
        let y := ((a * 10 + b) * 10 + c) * 10 + d
        let m := e * 10 + f
        let dd := g * 10 + h
        if 1 ≤ m ∧ m ≤ 12 ∧ 1 ≤ dd ∧ dd ≤ daysInMonth y m then
          some ⟨y, m, dd⟩
        else none
      | _, _, _, _, _, _, _, _ => none
    else none
  | _ => none

/-- Day of the week (0 = Sunday) by Sakamoto's congruence; backs the
weekday-name derivation of Python `date.strftime`. -/
def dayOfWeek (dt : Date) : Nat :=
  let t : List Nat := [0, 3, 2, 5, 0, 3, 5, 1, 4, 6, 2, 4]
  let y := if dt.month < 3 then dt.year - 1 else dt.year
  (y + y / 4 - y / 100 + y / 400 + t.getD (dt.month - 1) 0 + dt.day) % 7

/-- English weekday name of a date (`strftime` with the weekday format). -/
def dayName (dt : Date) : String :=
  ["Sunday", "Monday", "Tuesday", "Wednesday", "Thursday", "Friday",
    "Saturday"].getD (dayOfWeek dt) "Sunday"

/-- `DailyForecast` dataclass. -/
structure DailyForecast where
  date : Date
  day_name : String
  high_temp : Int
  low_temp : Int
  condition : WeatherCondition
  weather_code : Int
deriving DecidableEq, Repr

/-- `DailyForecast.from_data`: build a forecast record, deriving the
weekday name from the date and the condition from the code. -/
def DailyForecast.from_data (forecast_date : Date) (weather_code : Int)
    (high_temp low_temp : Int) : DailyForecast :=
  { date := forecast_date
    day_name := dayName forecast_date
    high_temp := high_temp
    low_temp := low_temp
    condition := WeatherCondition.from_wmo_code weather_code
    weather_code := weather_code }

/-- The provider's `daily` JSON object: parallel arrays keyed by field
name; a missing key is `none` (the parser reads it with a `dict.get`
default). -/
structure DailyPayload where
  time : Option (List String) := none
  weather_code : Option (List Int) := none
  temperature_2m_max : Option (List Int) := none
  temperature_2m_min : Option (List Int) := none
deriving DecidableEq, Repr

/-- One iteration of the `_parse_daily_forecast` loop body: the `try`
block builds an entry from index `i` of the parallel arrays; an
`IndexError` (a parallel array shorter than `i`) or a `ValueError`
(bad date string) makes the iteration yield nothing, skipping index
`i`. -/
def daily_entry (dates : List String) (codes highs lows : List Int)
    (i : Nat) : Option DailyForecast := do
  let s ← dates[i]?
  let forecast_date ← fromisoformat s
  let code ← codes[i]?
  let high ← highs[i]?
  let low ← lows[i]?
  some (DailyForecast.from_data forecast_date code high low)

/-- `WeatherService._parse_daily_forecast`: iterate the first
`min (length of the date array) 5` indices, collecting the entries
that parse. -/
def parse_daily_forecast (daily_data : DailyPayload) : List DailyForecast :=
  let dates := daily_data.time.getD []
  let codes := daily_data.weather_code.getD []
  let highs := daily_data.temperature_2m_max.getD []
  let lows := daily_data.temperature_2m_min.getD []
  (List.range (min dates.length 5)).filterMap (daily_entry dates codes highs lows)

/-- The provider's `current` JSON object; a field absent from the
payload is `none`. -/
structure CurrentPayload where
  temperature_2m : Option Int := none
  apparent_temperature : Option Int := none
  weather_code : Option Int := none
  relative_humidity_2m : Option Int := none
  is_day : Option Int := none
deriving DecidableEq, Repr

/-- A decoded provider response: the two top-level sections, each absent
when the payload omits it (`data.get` in the service). -/
structure RawResponse where
  current : Option CurrentPayload := none
  daily : Option DailyPayload := none
deriving DecidableEq, Repr

/-- Python exceptions that can escape the service: its own
`WeatherServiceError`, and an uncaught `KeyError` from a required-field
dictionary access. -/
inductive PyError where
  | serviceError (msg : String)
  | keyError (key : String)
deriving DecidableEq, Repr

/-- Outcome of one HTTP attempt inside `_make_request`: a decoded JSON
body, a `requests.Timeout`, or any other `requests.RequestException`
(including non-2xx statuses via `raise_for_status` and malformed JSON
bodies). -/
inductive AttemptResult where
  | success (data : RawResponse)
  | timeout
  | requestError (msg : String)
deriving DecidableEq, Repr

/-- Whether an attempt produced a decoded payload. -/
def AttemptResult.isSuccess : AttemptResult → Bool
  | .success _ => true
  | _ => false

/-- The error string an attempt contributes to `last_error`. -/
def AttemptResult.errorMessage : AttemptResult → String
  | .timeout => "Request timed out"
  | .requestError e => e
  | .success _ => ""

/-- The mutable instance state of `WeatherService`: the raw-response
cache, its timestamp, and the display location name
(`__init__` starts with an empty cache). -/
structure ServiceState where
  cache : Option RawResponse := none
  cache_time : Option Nat := none
  location_name : String := ""
deriving DecidableEq, Repr

/-- `MAX_RETRIES`: total number of attempts made by `_make_request`. -/
def MAX_RETRIES : Nat := 3

/-- `RETRY_DELAYS`: the fixed inter-attempt delay schedule in seconds. -/
def RETRY_DELAYS : List Nat := [5, 15, 45]

/-- Result of a `_make_request` call: the returned payload or the raised
`WeatherServiceError` message, the instance state afterwards, the total
time slept between attempts, and how many attempts ran. -/
structure RequestTrace where
  result : Except String RawResponse
  state : ServiceState
  totalWait : Nat
  attemptsMade : Nat
deriving Repr

/-- The message of the `WeatherServiceError` raised when every attempt
has failed, carrying the last observed error description. -/
def exhaust_message (lastError : Option String) : String :=
  "Failed to fetch weather data after " ++ toString MAX_RETRIES ++
    " attempts: " ++ lastError.getD "None"

/-- The retry loop of `_make_request` (`for attempt in range(MAX_RETRIES)`),
with the attempt numbers still to be run as a list.  A successful
attempt stores the body and `now` into the cache and returns at once; a
failed attempt records its message and, if it is not the last attempt,
sleeps `RETRY_DELAYS[attempt]` before the next one; completing the loop
raises `WeatherServiceError` with the last error. -/
def make_request_loop (oracle : Nat → AttemptResult) (now : Nat) :
    List Nat → ServiceState → Option String → Nat → RequestTrace
  | [], st, lastError, waited =>
      ⟨.error (exhaust_message lastError), st, waited, MAX_RETRIES⟩
  | attempt :: rest, st, _lastError, waited =>
      match oracle attempt with
      | .success data =>
          ⟨.ok data, { st with cache := some data, cache_time := some now },
            waited, attempt + 1⟩
      | failure =>
          make_request_loop oracle now rest st
            (some failure.errorMessage)
            (if attempt < MAX_RETRIES - 1 then
              waited + RETRY_DELAYS.getD attempt 0 else waited)

/-- `WeatherService._make_request`: up to `MAX_RETRIES` attempts, the
`attempt`-th outcome given by `oracle attempt`. -/
def make_request (oracle : Nat → AttemptResult) (now : Nat)
    (st : ServiceState) : RequestTrace :=
  make_request_loop oracle now (List.range MAX_RETRIES) st none 0

/-- `CurrentWeather` dataclass. -/
structure CurrentWeather where
  temperature : Int
  feels_like : Int
  condition : WeatherCondition
  weather_code : Int
  humidity : Option Int
  timestamp : Nat
  is_day : Bool
deriving DecidableEq, Repr

/-- `WeatherService._parse_current_weather`: `weather_code` defaults to 0
and `is_day` to 1 (`dict.get`), `humidity` passes through as an option,
while the subscript reads of `temperature_2m` and `apparent_temperature`
raise `KeyError` when the field is absent. -/
def parse_current_weather (current_data : CurrentPayload) (now : Nat) :
    Except PyError CurrentWeather :=
  let weather_code := current_data.weather_code.getD 0
  match current_data.temperature_2m with
  | none => .error (.keyError "temperature_2m")
  | some temperature =>
    match current_data.apparent_temperature with
    | none => .error (.keyError "apparent_temperature")
    | some feels =>
      .ok { temperature := temperature
            feels_like := feels
            condition := WeatherCondition.from_wmo_code weather_code
            weather_code := weather_code
            humidity := current_data.relative_humidity_2m
            timestamp := now
            is_day := current_data.is_day.getD 1 != 0 }

/-- `WeatherData` dataclass. -/
structure WeatherData where
  current : CurrentWeather
  forecast : List DailyForecast
  location_name : String
  last_updated : Nat
deriving DecidableEq, Repr

/-- Result of a `get_weather` call: the returned data or the exception
that escaped, together with the instance state afterwards and the total
time slept inside the retry loop. -/
structure WeatherOutcome where
  result : Except PyError WeatherData
  state : ServiceState
  totalWait : Nat
deriving Repr

/-- `WeatherService.get_weather`: run `_make_request`; on success parse
the two sections (a `KeyError` escapes uncaught); on
`WeatherServiceError` fall back to the cached raw response when one is
held, re-parsing it with `last_updated` taken from the cache timestamp,
and re-raise the error when the cache is empty. -/
def get_weather (oracle : Nat → AttemptResult) (now : Nat)
    (st : ServiceState) : WeatherOutcome :=
  let tr := make_request oracle now st
  match tr.result with
  | .ok data =>
      match parse_current_weather (data.current.getD {}) now with
      | .error e => ⟨.error e, tr.state, tr.totalWait⟩
      | .ok current =>
          ⟨.ok { current := current
                 forecast := parse_daily_forecast (data.daily.getD {})
                 location_name := tr.state.location_name
                 last_updated := now },
            tr.state, tr.totalWait⟩
  | .error msg =>
      match tr.state.cache with
      | some cached =>
          match parse_current_weather (cached.current.getD {}) now with
          | .error e => ⟨.error e, tr.state, tr.totalWait⟩
          | .ok current =>
              ⟨.ok { current := current
                     forecast := parse_daily_forecast (cached.daily.getD {})
                     location_name := tr.state.location_name
                     last_updated := tr.state.cache_time.getD now },
                tr.state, tr.totalWait⟩
      | none => ⟨.error (.serviceError msg), tr.state, tr.totalWait⟩

/-- `WeatherService.get_weather_safe`: `get_weather`, with only
`WeatherServiceError` caught and turned into `None`; any other
exception (in particular a `KeyError`) still propagates. -/
def get_weather_safe (oracle : Nat → AttemptResult) (now : Nat)
    (st : ServiceState) : Except PyError (Option WeatherData) × ServiceState :=
  let o := get_weather oracle now st
  match o.result with
  | .ok wd => (.ok (some wd), o.state)
  | .error (.serviceError _) => (.ok none, o.state)
  | .error e => (.error e, o.state)

/-- A snapshot with the capture timestamp of its current conditions
cleared, for comparing two reads up to the time they were made. -/
def eraseCaptureTime (wd : WeatherData) : WeatherData :=
  { wd with current := { wd.current with timestamp := 0 } }

/-- The environment one `_update_weather` run executes in: whether the
location lookup succeeds (`_init_weather_service`), the service state a
fresh initialization would produce, the attempt oracle and the clock. -/
structure Env where
  initOk : Bool
  initState : ServiceState
  oracle : Nat → AttemptResult
  now : Nat

/-- The application state touched by the weather refresh path of
`WeatherClockApp`: the service instance (absent until initialized), the
last data, and the number of pending `root.after` weather-update timer
jobs. -/
structure AppState where
  weather_service : Option ServiceState
  weather_data : Option WeatherData
  pending_jobs : Nat

/-- What one `_update_weather` run did: the application state after it,
how often it invoked the forecast client (`get_weather_safe`), how many
timer jobs it armed (`_schedule_weather_update`), and the exception that
escaped the handler, if any (in Tk the callback is then aborted, so any
code after the raise — including the re-arm — does not run). -/
structure UpdateResult where
  state : AppState
  fetch_calls : Nat
  armed : Nat
  crashed : Option PyError

/-- The body of `_update_weather` after service initialization: one
`get_weather_safe` call; on data, store it and re-arm; on `None`
(offline status), re-arm; on an uncaught exception, the handler dies
before `_schedule_weather_update` runs. -/
def run_fetch (env : Env) (svc : ServiceState) (app : AppState) :
    UpdateResult :=
  let r := get_weather_safe env.oracle env.now svc
  match r.1 with
  | .ok (some wd) =>
      ⟨{ weather_service := some r.2, weather_data := some wd,
         pending_jobs := app.pending_jobs + 1 }, 1, 1, none⟩
  | .ok none =>
      ⟨{ weather_service := some r.2, weather_data := app.weather_data,
         pending_jobs := app.pending_jobs + 1 }, 1, 1, none⟩
  | .error e =>
      ⟨{ weather_service := some r.2, weather_data := app.weather_data,
         pending_jobs := app.pending_jobs }, 1, 0, some e⟩

/-- `WeatherClockApp._update_weather`: initialize the service if needed
(on a failed location lookup, just re-arm and return), then fetch. -/
def update_weather (env : Env) (app : AppState) : UpdateResult :=
  match app.weather_service with
  | none =>
      if env.initOk then
        run_fetch env env.initState app
      else
        ⟨{ app with pending_jobs := app.pending_jobs + 1 }, 0, 1, none⟩
  | some svc => run_fetch env svc app

/-- A timer fire in the Tk event loop: the due job is consumed and its
callback `_update_weather` runs to completion (the loop is
single-threaded, so nothing else runs while it does). -/
def fire_timer (env : Env) (app : AppState) : UpdateResult :=
  update_weather env { app with pending_jobs := app.pending_jobs - 1 }

/-- The Tk event loop driving the refresh cycle: at each step, if a
weather-update job is pending, it fires and its handler runs atomically;
callbacks never overlap. -/
def event_loop : List Env → AppState → AppState
  | [], app => app
  | env :: rest, app =>
      event_loop rest
        (if app.pending_jobs = 0 then app else (fire_timer env app).state)

/-- Concrete fixture: a fully-populated provider response. -/
def exGoodData : RawResponse :=
  ⟨some ⟨some 70, some 68, some 2, some 55, some 1⟩,
   some ⟨some ["2024-01-01"], some [0], some [40], some [30]⟩⟩

/-- Concrete fixture: a response whose `current` section lacks the
required `temperature_2m` field. -/
def exBadData : RawResponse :=
  ⟨some ⟨none, some 68, none, none, none⟩, none⟩

/-- Concrete fixture: every attempt times out. -/
def exFailOracle : Nat → AttemptResult := fun _ => .timeout

/-- Concrete fixture: two timeouts, then a good payload. -/
def exRetryOracle : Nat → AttemptResult :=
  fun n => if n < 2 then .timeout else .success exGoodData

/-- Concrete fixture: the first attempt returns the payload missing its
required field. -/
def exBadOracle : Nat → AttemptResult := fun _ => .success exBadData

/-- Concrete fixture: a freshly-initialized service (empty cache). -/
def exStateEmpty : ServiceState := {}

/-- Concrete fixture: a service holding `exGoodData` fetched at time 40. -/
def exStateCached : ServiceState :=
  { cache := some exGoodData, cache_time := some 40, location_name := "Home" }

/-- Concrete fixture: the parse of `exGoodData`'s current section at
time `now`. -/
def exCurrentAt (now : Nat) : CurrentWeather :=
  { temperature := 70, feels_like := 68, condition := .cloudy,
    weather_code := 2, humidity := some 55, timestamp := now,
    is_day := true }

/-- Concrete fixture: the parse of `exGoodData`'s daily section. -/
def exForecast : List DailyForecast :=
  [{ date := ⟨2024, 1, 1⟩, day_name := "Monday", high_temp := 40,
     low_temp := 30, condition := .sunny, weather_code := 0 }]

/-- Concrete fixture: an environment whose location lookup succeeds and
whose fetch attempts all time out. -/
def exEnv : Env := ⟨true, exStateEmpty, exFailOracle, 100⟩

/-- Concrete fixture: an application before its first update, with the
initial timer armed. -/
def exApp : AppState := ⟨none, none, 1⟩

end PiWeatherClock

/-- C1: the classification is a total function on the integers: codes 0 and 1
map to Sunny, codes 2, 3, 45, 48 to Cloudy, codes 71, 73, 75, 77, 85, 86 to
Snow, and every other integer to Rain, so each code resolves to exactly one
of the four categories. -/
theorem C1_classification_total (code : Int) :
    ((code = 0 ∨ code = 1) → PiWeatherClock.WeatherCondition.from_wmo_code code = .sunny) ∧
    ((code = 2 ∨ code = 3 ∨ code = 45 ∨ code = 48) →
      PiWeatherClock.WeatherCondition.from_wmo_code code = .cloudy) ∧
    ((code = 71 ∨ code = 73 ∨ code = 75 ∨ code = 77 ∨ code = 85 ∨ code = 86) →
      PiWeatherClock.WeatherCondition.from_wmo_code code = .snow) ∧
    (code ∉ ([0, 1, 2, 3, 45, 48, 71, 73, 75, 77, 85, 86] : List Int) →
      PiWeatherClock.WeatherCondition.from_wmo_code code = .rain) := by
  refine ⟨?_, ?_, ?_, ?_⟩ <;> intro h <;>
    simp only [PiWeatherClock.WeatherCondition.from_wmo_code, List.mem_cons,
      List.not_mem_nil, or_false, List.mem_singleton] at *
  · rcases h with h | h <;> simp [h]
  · rcases h with h | h | h | h <;> simp [h]
  · rcases h with h | h | h | h | h | h <;> simp [h]
  · push_neg at h
    obtain ⟨h0, h1, h2, h3, h45, h48, h71, h73, h75, h77, h85, h86⟩ := h
    simp [h0, h1, h2, h3, h45, h48, h71, h73, h75, h77, h85, h86]

/-- Witness for C1 at concrete codes: 0 is sunny, 45 is cloudy, 75 is snow,
and 999 (not in any explicit class) is rain. -/
theorem C1_classification_total_witness :
    PiWeatherClock.WeatherCondition.from_wmo_code 0 = .sunny ∧
    PiWeatherClock.WeatherCondition.from_wmo_code 45 = .cloudy ∧
    PiWeatherClock.WeatherCondition.from_wmo_code 75 = .snow ∧
    PiWeatherClock.WeatherCondition.from_wmo_code 999 = .rain :=
  ⟨(C1_classification_total 0).1 (Or.inl rfl),
   (C1_classification_total 45).2.1 (by decide),
   (C1_classification_total 75).2.2.1 (by decide),
   (C1_classification_total 999).2.2.2 (by decide)⟩

open PiWeatherClock

/-- Collecting `l[i]?` over the first `n` indices yields `l.take n`. -/
theorem pwc_filterMap_getElem_range {α : Type} (l : List α) :
    ∀ n : Nat, (List.range n).filterMap (fun i => l[i]?) = l.take n := by
  intro n
  induction n with
  | zero => simp
  | succ n ih =>
      rw [List.range_succ, List.filterMap_append, ih, List.take_succ]
      cases h : l[n]? <;> simp [h]

/-- The date of the entry built at index `i` is the parsed input date when
all parallel arrays reach index `i`, and nothing otherwise. -/
theorem pwc_daily_entry_map_date
    (ds : List String) (pds : List Date) (cs hs ls : List Int)
    (hp : ∀ i : Nat, i < ds.length → (ds[i]?.bind fromisoformat) = pds[i]?)
    (i : Nat) (hi : i < ds.length) :
    (daily_entry ds cs hs ls i).map (fun e => e.date)
      = if i < cs.length ∧ i < hs.length ∧ i < ls.length then pds[i]? else none := by
  have h1 : ds[i]? = some ds[i] := List.getElem?_eq_getElem hi
  have h2 : fromisoformat ds[i] = pds[i]? := by
    have h := hp i hi
    rw [h1] at h
    simpa using h
  unfold daily_entry
  rw [h1]
  cases hfm : fromisoformat ds[i] with
  | none =>
      rw [hfm] at h2
      simp [hfm, ← h2]
  | some d =>
      rw [hfm] at h2
      by_cases hc : i < cs.length
      · by_cases hh : i < hs.length
        · by_cases hl : i < ls.length
          · rw [List.getElem?_eq_getElem hc, List.getElem?_eq_getElem hh,
              List.getElem?_eq_getElem hl]
            simp [hfm, DailyForecast.from_data, ← h2, hc, hh, hl]
          · rw [List.getElem?_eq_none (Nat.le_of_not_lt hl)]
            simp [hfm, hc, hh, hl]
        · rw [List.getElem?_eq_none (Nat.le_of_not_lt hh)]
          simp [hfm, hc, hh]
      · rw [List.getElem?_eq_none (Nat.le_of_not_lt hc)]
        simp [hfm, hc]

/-- The dates of the entries collected over the first `n` indices are the
parsed input dates at the indices every parallel array reaches. -/
theorem pwc_parse_daily_map_date
    (ds : List String) (pds : List Date) (cs hs ls : List Int)
    (hp : ∀ i : Nat, i < ds.length → (ds[i]?.bind fromisoformat) = pds[i]?) :
    ∀ n : Nat, n ≤ ds.length →
      (((List.range n).filterMap (daily_entry ds cs hs ls)).map (fun e => e.date))
        = ((List.range n).filter
            (fun i => decide (i < cs.length) && decide (i < hs.length) &&
              decide (i < ls.length))).filterMap (fun i => pds[i]?) := by
  intro n
  induction n with
  | zero => simp
  | succ n ih =>
      intro hn
      have hn' : n ≤ ds.length := Nat.le_of_succ_le hn
      have hi : n < ds.length := hn
      rw [List.range_succ, List.filterMap_append, List.filter_append,
        List.map_append, List.filterMap_append, ih hn']
      congr 1
      have hmap := pwc_daily_entry_map_date ds pds cs hs ls hp n hi
      by_cases hcond : n < cs.length ∧ n < hs.length ∧ n < ls.length
      · rw [if_pos hcond] at hmap
        cases he : daily_entry ds cs hs ls n with
        | none =>
            rw [he] at hmap
            simp only [Option.map_none'] at hmap
            simp [hcond, ← hmap, he]
        | some e =>
            rw [he] at hmap
            simp only [Option.map_some'] at hmap
            simp [hcond, ← hmap, he]
      · rw [if_neg hcond] at hmap
        cases he : daily_entry ds cs hs ls n with
        | none =>
            have : ¬(decide (n < cs.length) && decide (n < hs.length) &&
                decide (n < ls.length)) = true := by
              simpa [and_assoc] using hcond
            simp [he, this]
        | some e =>
            rw [he] at hmap
            simp at hmap

/-- C2: the daily parser iterates exactly `min (date-array length) 5`
indices and yields entries in input order: the entry dates are the parsed
input dates at exactly those indices every parallel array reaches; with
parallel arrays at least as long as that bound it returns exactly that
many entries whose dates match the input dates, and an index where some
parallel array is too short is skipped while iteration continues. -/
theorem C2_daily_parser_shape
    (ds : List String) (pds : List Date) (cs hs ls : List Int)
    (hp : ∀ i : Nat, i < ds.length → (ds[i]?.bind fromisoformat) = pds[i]?)
    (hlen : pds.length = ds.length) :
    (parse_daily_forecast ⟨some ds, some cs, some hs, some ls⟩).map (fun e => e.date)
      = ((List.range (min ds.length 5)).filter
          (fun i => decide (i < cs.length) && decide (i < hs.length) &&
            decide (i < ls.length))).filterMap (fun i => pds[i]?)
    ∧ (parse_daily_forecast ⟨some ds, some cs, some hs, some ls⟩).length
        ≤ min ds.length 5
    ∧ (min ds.length 5 ≤ cs.length → min ds.length 5 ≤ hs.length →
        min ds.length 5 ≤ ls.length →
        (parse_daily_forecast ⟨some ds, some cs, some hs, some ls⟩).length
            = min ds.length 5
        ∧ (parse_daily_forecast ⟨some ds, some cs, some hs, some ls⟩).map
            (fun e => e.date) = pds.take (min ds.length 5)) := by
  have hn : min ds.length 5 ≤ ds.length := Nat.min_le_left _ _
  have hmain := pwc_parse_daily_map_date ds pds cs hs ls hp (min ds.length 5) hn
  have hr : parse_daily_forecast ⟨some ds, some cs, some hs, some ls⟩
      = (List.range (min ds.length 5)).filterMap (daily_entry ds cs hs ls) := by
    simp [parse_daily_forecast]
  refine ⟨by rw [hr]; exact hmain, ?_, ?_⟩
  · rw [hr]
    calc ((List.range (min ds.length 5)).filterMap
            (daily_entry ds cs hs ls)).length
        ≤ (List.range (min ds.length 5)).length := List.length_filterMap_le _ _
      _ = min ds.length 5 := List.length_range _
  · intro h1 h2 h3
    have hfilter : (List.range (min ds.length 5)).filter
        (fun i => decide (i < cs.length) && decide (i < hs.length) &&
          decide (i < ls.length)) = List.range (min ds.length 5) := by
      apply List.filter_eq_self.mpr
      intro i hi
      have hilt : i < min ds.length 5 := List.mem_range.mp hi
      simp only [Bool.and_eq_true, decide_eq_true_eq]
      omega
    rw [hfilter, pwc_filterMap_getElem_range pds (min ds.length 5)] at hmain
    refine ⟨?_, by rw [hr]; exact hmain⟩
    have hlength : (pds.take (min ds.length 5)).length = min ds.length 5 := by
      rw [List.length_take]
      omega
    have hml : ((List.range (min ds.length 5)).filterMap
        (daily_entry ds cs hs ls)).length = (pds.take (min ds.length 5)).length := by
      conv_lhs =>
        rw [← List.length_map ((List.range (min ds.length 5)).filterMap
          (daily_entry ds cs hs ls)) (fun e => e.date)]
      rw [hmain]
    rw [hr, hml, hlength]

/-- Witness for C2: five well-formed days yield exactly five entries with
the input dates in order; three days yield three; a length-4 highs array
with five days skips exactly the fifth index. -/
theorem C2_daily_parser_shape_witness :
    (parse_daily_forecast
      ⟨some ["2024-01-01", "2024-01-02", "2024-01-03", "2024-01-04", "2024-01-05"],
       some [0, 1, 2, 3, 61], some [40, 41, 42, 43, 44],
       some [30, 31, 32, 33, 34]⟩).length = 5
    ∧ (parse_daily_forecast
      ⟨some ["2024-01-01", "2024-01-02", "2024-01-03", "2024-01-04", "2024-01-05"],
       some [0, 1, 2, 3, 61], some [40, 41, 42, 43, 44],
       some [30, 31, 32, 33, 34]⟩).map (fun e => e.date)
        = [⟨2024, 1, 1⟩, ⟨2024, 1, 2⟩, ⟨2024, 1, 3⟩, ⟨2024, 1, 4⟩, ⟨2024, 1, 5⟩]
    ∧ (parse_daily_forecast
      ⟨some ["2024-01-01", "2024-01-02", "2024-01-03"],
       some [0, 1, 2], some [40, 41, 42], some [30, 31, 32]⟩).length = 3
    ∧ (parse_daily_forecast
      ⟨some ["2024-01-01", "2024-01-02", "2024-01-03", "2024-01-04", "2024-01-05"],
       some [0, 1, 2, 3, 61], some [40, 41, 42, 43],
       some [30, 31, 32, 33, 34]⟩).map (fun e => e.date)
        = [⟨2024, 1, 1⟩, ⟨2024, 1, 2⟩, ⟨2024, 1, 3⟩, ⟨2024, 1, 4⟩] := by
  have h5 := (C2_daily_parser_shape
    ["2024-01-01", "2024-01-02", "2024-01-03", "2024-01-04", "2024-01-05"]
    [⟨2024, 1, 1⟩, ⟨2024, 1, 2⟩, ⟨2024, 1, 3⟩, ⟨2024, 1, 4⟩, ⟨2024, 1, 5⟩]
    [0, 1, 2, 3, 61] [40, 41, 42, 43, 44] [30, 31, 32, 33, 34]
    (by decide) (by decide)).2.2 (by decide) (by decide) (by decide)
  have h3 := (C2_daily_parser_shape
    ["2024-01-01", "2024-01-02", "2024-01-03"]
    [⟨2024, 1, 1⟩, ⟨2024, 1, 2⟩, ⟨2024, 1, 3⟩]
    [0, 1, 2] [40, 41, 42] [30, 31, 32]
    (by decide) (by decide)).2.2 (by decide) (by decide) (by decide)
  have hskip := (C2_daily_parser_shape
    ["2024-01-01", "2024-01-02", "2024-01-03", "2024-01-04", "2024-01-05"]
    [⟨2024, 1, 1⟩, ⟨2024, 1, 2⟩, ⟨2024, 1, 3⟩, ⟨2024, 1, 4⟩, ⟨2024, 1, 5⟩]
    [0, 1, 2, 3, 61] [40, 41, 42, 43] [30, 31, 32, 33, 34]
    (by decide) (by decide)).1
  refine ⟨by simpa using h5.1, by simpa using h5.2, by simpa using h3.1, ?_⟩
  rw [hskip]
  decide

/-- A failed attempt records its message, sleeps when it is not the
last attempt, and continues with the remaining attempts. -/
theorem pwc_loop_fail (oracle : Nat → AttemptResult) (now attempt : Nat)
    (rest : List Nat) (st : ServiceState) (le : Option String) (w : Nat)
    (hf : (oracle attempt).isSuccess = false) :
    make_request_loop oracle now (attempt :: rest) st le w =
      make_request_loop oracle now rest st
        (some (oracle attempt).errorMessage)
        (if attempt < MAX_RETRIES - 1 then
          w + RETRY_DELAYS.getD attempt 0 else w) := by
  cases ho : oracle attempt with
  | success d =>
      rw [ho] at hf
      simp [AttemptResult.isSuccess] at hf
  | timeout => simp [make_request_loop, ho]
  | requestError m => simp [make_request_loop, ho]

/-- A successful attempt stores the payload and the current time into
the cache and returns at once, with no further wait. -/
theorem pwc_loop_success (oracle : Nat → AttemptResult) (now attempt : Nat)
    (rest : List Nat) (st : ServiceState) (le : Option String) (w : Nat)
    (data : RawResponse) (ho : oracle attempt = .success data) :
    make_request_loop oracle now (attempt :: rest) st le w =
      ⟨.ok data, { st with cache := some data, cache_time := some now },
        w, attempt + 1⟩ := by
  simp [make_request_loop, ho]

/-- Completing the loop raises the typed failure with the last recorded
error, leaving the state untouched. -/
theorem pwc_loop_exhaust (oracle : Nat → AttemptResult) (now : Nat)
    (st : ServiceState) (le : Option String) (w : Nat) :
    make_request_loop oracle now [] st le w =
      ⟨.error (exhaust_message le), st, w, MAX_RETRIES⟩ := rfl

/-- When all three attempts fail, `_make_request` raises the typed
failure carrying the last attempt's error, leaves the instance state
unchanged, sleeps the first two delays, and makes exactly 3 attempts. -/
theorem pwc_make_request_all_fail (oracle : Nat → AttemptResult)
    (now : Nat) (st : ServiceState)
    (h : ∀ j, j < MAX_RETRIES → (oracle j).isSuccess = false) :
    make_request oracle now st =
      ⟨.error (exhaust_message (some (oracle 2).errorMessage)), st,
        RETRY_DELAYS.getD 0 0 + RETRY_DELAYS.getD 1 0, MAX_RETRIES⟩ := by
  have h0 := h 0 (by decide)
  have h1 := h 1 (by decide)
  have h2 := h 2 (by decide)
  show make_request_loop oracle now [0, 1, 2] st none 0 = _
  rw [pwc_loop_fail oracle now 0 [1, 2] st none 0 h0]
  norm_num [MAX_RETRIES]
  rw [pwc_loop_fail oracle now 1 [2] st _ _ h1]
  norm_num [MAX_RETRIES]
  rw [pwc_loop_fail oracle now 2 [] st _ _ h2]
  norm_num [MAX_RETRIES]
  rfl

/-- When the first `k` attempts fail and attempt `k` (below the bound)
succeeds, `_make_request` returns that payload at once, stores it in the
cache with the current time, makes `k + 1` attempts, and has slept
exactly the first `k` configured delays. -/
theorem pwc_make_request_success (oracle : Nat → AttemptResult)
    (now : Nat) (st : ServiceState) (k : Nat) (data : RawResponse)
    (hk : k < MAX_RETRIES)
    (hfail : ∀ j, j < k → (oracle j).isSuccess = false)
    (hsucc : oracle k = .success data) :
    make_request oracle now st =
      ⟨.ok data, { st with cache := some data, cache_time := some now },
        (RETRY_DELAYS.take k).sum, k + 1⟩ := by
  have hk3 : k < 3 := hk
  interval_cases k
  · show make_request_loop oracle now [0, 1, 2] st none 0 = _
    rw [pwc_loop_success oracle now 0 [1, 2] st none 0 data hsucc]
    norm_num [RETRY_DELAYS]
  · have h0 := hfail 0 (by decide)
    show make_request_loop oracle now [0, 1, 2] st none 0 = _
    rw [pwc_loop_fail oracle now 0 [1, 2] st none 0 h0]
    norm_num [MAX_RETRIES]
    rw [pwc_loop_success oracle now 1 [2] st _ _ data hsucc]
    norm_num [RETRY_DELAYS]
  · have h0 := hfail 0 (by decide)
    have h1 := hfail 1 (by decide)
    show make_request_loop oracle now [0, 1, 2] st none 0 = _
    rw [pwc_loop_fail oracle now 0 [1, 2] st none 0 h0]
    norm_num [MAX_RETRIES]
    rw [pwc_loop_fail oracle now 1 [2] st _ _ h1]
    norm_num [MAX_RETRIES]
    rw [pwc_loop_success oracle now 2 [] st _ _ data hsucc]
    norm_num [RETRY_DELAYS]

/-- The loop never reports more than `MAX_RETRIES` attempts when every
listed attempt number is below the bound. -/
theorem pwc_loop_attempts_le (oracle : Nat → AttemptResult) (now : Nat) :
    ∀ (l : List Nat) (st : ServiceState) (le : Option String) (w : Nat),
      (∀ a ∈ l, a < MAX_RETRIES) →
      (make_request_loop oracle now l st le w).attemptsMade ≤ MAX_RETRIES := by
  intro l
  induction l with
  | nil =>
      intro st le w _
      simp [make_request_loop]
  | cons a rest ih =>
      intro st le w hb
      have ha : a < MAX_RETRIES := hb a (by simp)
      cases ho : oracle a with
      | success d =>
          rw [pwc_loop_success oracle now a rest st le w d ho]
          simpa using ha
      | timeout =>
          rw [pwc_loop_fail oracle now a rest st le w
            (by simp [ho, AttemptResult.isSuccess])]
          exact ih _ _ _ (fun b hb2 => hb b (by simp [hb2]))
      | requestError m =>
          rw [pwc_loop_fail oracle now a rest st le w
            (by simp [ho, AttemptResult.isSuccess])]
          exact ih _ _ _ (fun b hb2 => hb b (by simp [hb2]))

/-- `_make_request` runs at most `MAX_RETRIES` attempts. -/
theorem pwc_make_request_attempts_le (oracle : Nat → AttemptResult)
    (now : Nat) (st : ServiceState) :
    (make_request oracle now st).attemptsMade ≤ MAX_RETRIES := by
  show (make_request_loop oracle now (List.range MAX_RETRIES) st
    none 0).attemptsMade ≤ MAX_RETRIES
  apply pwc_loop_attempts_le
  intro a ha
  simpa using List.mem_range.mp ha

/-- When some attempt succeeds, `_make_request` returns a payload. -/
theorem pwc_make_request_ok_exists (oracle : Nat → AttemptResult)
    (now : Nat) (st : ServiceState)
    (hex : ¬ ∀ j, j < MAX_RETRIES → (oracle j).isSuccess = false) :
    ∃ data, (make_request oracle now st).result = .ok data := by
  by_cases h0 : (oracle 0).isSuccess = true
  · cases ho : oracle 0 with
    | success d =>
        exact ⟨d, by rw [pwc_make_request_success oracle now st 0 d (by decide)
          (fun j hj => absurd hj (by omega)) ho]⟩
    | timeout => rw [ho] at h0; simp [AttemptResult.isSuccess] at h0
    | requestError m => rw [ho] at h0; simp [AttemptResult.isSuccess] at h0
  · by_cases h1 : (oracle 1).isSuccess = true
    · cases ho : oracle 1 with
      | success d =>
          have hf1 : ∀ j, j < 1 → (oracle j).isSuccess = false := by
            intro j hj
            interval_cases j
            simpa using h0
          exact ⟨d, by rw [pwc_make_request_success oracle now st 1 d
            (by decide) hf1 ho]⟩
      | timeout => rw [ho] at h1; simp [AttemptResult.isSuccess] at h1
      | requestError m => rw [ho] at h1; simp [AttemptResult.isSuccess] at h1
    · by_cases h2 : (oracle 2).isSuccess = true
      · cases ho : oracle 2 with
        | success d =>
            have hf2 : ∀ j, j < 2 → (oracle j).isSuccess = false := by
              intro j hj
              interval_cases j
              · simpa using h0
              · simpa using h1
            exact ⟨d, by rw [pwc_make_request_success oracle now st 2 d
              (by decide) hf2 ho]⟩
        | timeout => rw [ho] at h2; simp [AttemptResult.isSuccess] at h2
        | requestError m => rw [ho] at h2; simp [AttemptResult.isSuccess] at h2
      · exfalso
        apply hex
        intro j hj
        have hj3 : j < 3 := hj
        interval_cases j
        · simpa using h0
        · simpa using h1
        · simpa using h2

/-- C3 counterexample: the delay list does not have length
`MAX_RETRIES - 1`; it has one entry per attempt (the last, 45s, is
never slept because no wait follows the final attempt). -/
theorem C3_counterexample_delay_list_length :
    PiWeatherClock.RETRY_DELAYS.length ≠ PiWeatherClock.MAX_RETRIES - 1 := by
  decide

/-- C3 (amended): the fetch makes at most 3 attempts, waiting between
consecutive attempts the delays of the fixed schedule in order, with the
delay list having length equal to the max attempt count (its last entry
unused) and no wait after the last attempt; a run whose first two
attempts fail and whose third succeeds returns that payload with total
wait `RETRY_DELAYS[0] + RETRY_DELAYS[1]`, and a structurally valid
payload on any attempt terminates the loop immediately. -/
theorem C3_retry_schedule :
    RETRY_DELAYS.length = MAX_RETRIES ∧
    (∀ oracle now st,
      (make_request oracle now st).attemptsMade ≤ MAX_RETRIES) ∧
    (∀ oracle now st,
      (∀ j, j < MAX_RETRIES → (oracle j).isSuccess = false) →
      (make_request oracle now st).totalWait
          = RETRY_DELAYS.getD 0 0 + RETRY_DELAYS.getD 1 0) ∧
    (∀ oracle now st k data, k < MAX_RETRIES →
      (∀ j, j < k → (oracle j).isSuccess = false) →
      oracle k = .success data →
      (make_request oracle now st).result = .ok data ∧
      (make_request oracle now st).attemptsMade = k + 1 ∧
      (make_request oracle now st).totalWait = (RETRY_DELAYS.take k).sum) := by
  refine ⟨by decide, pwc_make_request_attempts_le, ?_, ?_⟩
  · intro oracle now st h
    rw [pwc_make_request_all_fail oracle now st h]
  · intro oracle now st k data hk hf hs
    rw [pwc_make_request_success oracle now st k data hk hf hs]
    exact ⟨rfl, rfl, rfl⟩

/-- Witness for C3: two timeouts then a success yield the payload after
exactly 3 attempts with a total wait of 5 + 15 seconds. -/
theorem C3_retry_schedule_witness :
    (make_request exRetryOracle 100 exStateEmpty).result = .ok exGoodData ∧
    (make_request exRetryOracle 100 exStateEmpty).attemptsMade = 3 ∧
    (make_request exRetryOracle 100 exStateEmpty).totalWait = 5 + 15 := by
  have h := C3_retry_schedule.2.2.2 exRetryOracle 100 exStateEmpty 2 exGoodData
    (by decide) (by decide) rfl
  refine ⟨h.1, by rw [h.2.1], by rw [h.2.2]; rfl⟩

/-- When every attempt fails, `get_weather` reduces to the cache
fallback: re-parse the cached raw response (its `last_updated` taken
from the cache timestamp), or re-raise the typed failure when no cache
is held; the state and total wait are those of the failed request. -/
theorem pwc_get_weather_all_fail (oracle : Nat → AttemptResult)
    (now : Nat) (st : ServiceState)
    (hfail : ∀ j, j < MAX_RETRIES → (oracle j).isSuccess = false) :
    get_weather oracle now st =
      match st.cache with
      | some cached =>
          match parse_current_weather (cached.current.getD {}) now with
          | .error e =>
              ⟨.error e, st, RETRY_DELAYS.getD 0 0 + RETRY_DELAYS.getD 1 0⟩
          | .ok current =>
              ⟨.ok { current := current
                     forecast := parse_daily_forecast (cached.daily.getD {})
                     location_name := st.location_name
                     last_updated := st.cache_time.getD now },
                st, RETRY_DELAYS.getD 0 0 + RETRY_DELAYS.getD 1 0⟩
      | none =>
          ⟨.error (.serviceError
              (exhaust_message (some (oracle 2).errorMessage))), st,
            RETRY_DELAYS.getD 0 0 + RETRY_DELAYS.getD 1 0⟩ := by
  unfold get_weather
  rw [pwc_make_request_all_fail oracle now st hfail]

/-- `get_weather` never touches the instance state beyond what
`_make_request` already did. -/
theorem pwc_get_weather_state (oracle : Nat → AttemptResult)
    (now : Nat) (st : ServiceState) :
    (get_weather oracle now st).state = (make_request oracle now st).state := by
  cases hres : (make_request oracle now st).result with
  | error msg =>
      cases hc : (make_request oracle now st).state.cache with
      | none => simp [get_weather, hres, hc]
      | some cached =>
          cases hp : parse_current_weather (cached.current.getD {}) now with
          | error e => simp [get_weather, hres, hc, hp]
          | ok cw => simp [get_weather, hres, hc, hp]
  | ok data =>
      cases hp : parse_current_weather (data.current.getD {}) now with
      | error e => simp [get_weather, hres, hp]
      | ok cw => simp [get_weather, hres, hp]

/-- C4 counterexample: with every attempt failing but a cached raw
response held, `get_weather` returns the re-parsed cached data (its
`last_updated` being the cached fetch time 40), not the typed failure. -/
theorem C4_counterexample_failing_call_returns_cache :
    (get_weather exFailOracle 100 exStateCached).result
      = .ok { current := exCurrentAt 100
              forecast := exForecast
              location_name := "Home"
              last_updated := 40 } := rfl

/-- C4 (amended): after exhausting all attempts `_make_request` raises a
single typed failure carrying the last observed error and performs no
cache fallback itself; but the service retains its raw-response cache in
instance state between calls and `get_weather` falls back to it, so a
failing fetch surfaces the typed failure only when no cached response
exists. -/
theorem C4_typed_failure_only_without_cache :
    (∀ oracle now st,
      (∀ j, j < MAX_RETRIES → (oracle j).isSuccess = false) →
      (make_request oracle now st).result
          = .error (exhaust_message
              (some ((oracle (MAX_RETRIES - 1)).errorMessage))) ∧
      (make_request oracle now st).state = st) ∧
    (∀ oracle now st,
      (∀ j, j < MAX_RETRIES → (oracle j).isSuccess = false) →
      st.cache = none →
      (get_weather oracle now st).result
          = .error (.serviceError (exhaust_message
              (some ((oracle (MAX_RETRIES - 1)).errorMessage))))) := by
  constructor
  · intro oracle now st h
    rw [pwc_make_request_all_fail oracle now st h]
    exact ⟨rfl, rfl⟩
  · intro oracle now st h hc
    rw [pwc_get_weather_all_fail oracle now st h, hc]
    rfl

/-- Witness for C4: with all attempts timing out and an empty cache, the
request and the fetch both surface the typed failure carrying the last
timeout description. -/
theorem C4_typed_failure_only_without_cache_witness :
    (make_request exFailOracle 100 exStateEmpty).result
        = .error (exhaust_message (some "Request timed out")) ∧
    (get_weather exFailOracle 100 exStateEmpty).result
        = .error (.serviceError
            (exhaust_message (some "Request timed out"))) := by
  constructor
  · exact (C4_typed_failure_only_without_cache.1 exFailOracle 100 exStateEmpty
      (by decide)).1
  · exact C4_typed_failure_only_without_cache.2 exFailOracle 100 exStateEmpty
      (by decide) rfl


/-- A current-conditions parse failure does not depend on the clock. -/
theorem pwc_parse_current_error_time (c : CurrentPayload) (n1 n2 : Nat)
    (e : PyError) (h : parse_current_weather c n1 = .error e) :
    parse_current_weather c n2 = .error e := by
  unfold parse_current_weather at h ⊢
  cases ht : c.temperature_2m with
  | none =>
      rw [ht] at h
      exact h
  | some t =>
      rw [ht] at h
      cases ha : c.apparent_temperature with
      | none =>
          rw [ha] at h
          exact h
      | some f =>
          rw [ha] at h
          simp at h

/-- A successful current-conditions parse at a different clock differs
only in the capture timestamp. -/
theorem pwc_parse_current_ok_time (c : CurrentPayload) (n1 n2 : Nat)
    (cw : CurrentWeather) (h : parse_current_weather c n1 = .ok cw) :
    parse_current_weather c n2 = .ok { cw with timestamp := n2 } := by
  unfold parse_current_weather at h ⊢
  cases ht : c.temperature_2m with
  | none =>
      rw [ht] at h
      simp at h
  | some t =>
      rw [ht] at h
      cases ha : c.apparent_temperature with
      | none =>
          rw [ha] at h
          simp at h
      | some f =>
          rw [ha] at h
          simp only [Except.ok.injEq] at h
          subst h
          rfl

/-- Current-conditions parse failures are always `KeyError`s on one of
the two required fields. -/
theorem pwc_parse_current_error_shape (c : CurrentPayload) (n : Nat)
    (e : PyError) (h : parse_current_weather c n = .error e) :
    e = .keyError "temperature_2m" ∨ e = .keyError "apparent_temperature" := by
  unfold parse_current_weather at h
  cases ht : c.temperature_2m with
  | none =>
      rw [ht] at h
      left
      have h3 : PyError.keyError "temperature_2m" = e := by simpa using h
      exact h3.symm
  | some t =>
      rw [ht] at h
      cases ha : c.apparent_temperature with
      | none =>
          rw [ha] at h
          right
          have h3 : PyError.keyError "apparent_temperature" = e := by
            simpa using h
          exact h3.symm
      | some f =>
          rw [ha] at h
          simp at h

/-- With every attempt failing and no cached response, `get_weather`
re-raises the typed failure with an untouched state. -/
theorem pwc_get_weather_fail_no_cache (oracle : Nat → AttemptResult)
    (now : Nat) (st : ServiceState)
    (hfail : ∀ j, j < MAX_RETRIES → (oracle j).isSuccess = false)
    (hc : st.cache = none) :
    get_weather oracle now st =
      ⟨.error (.serviceError
          (exhaust_message (some (oracle 2).errorMessage))), st,
        RETRY_DELAYS.getD 0 0 + RETRY_DELAYS.getD 1 0⟩ := by
  unfold get_weather
  rw [pwc_make_request_all_fail oracle now st hfail]
  simp [hc]

/-- With every attempt failing and a cached response held, `get_weather`
re-parses the cache, stamping `last_updated` from the cache timestamp,
and leaves the state untouched. -/
theorem pwc_get_weather_fail_cached (oracle : Nat → AttemptResult)
    (now : Nat) (st : ServiceState) (cached : RawResponse)
    (hfail : ∀ j, j < MAX_RETRIES → (oracle j).isSuccess = false)
    (hc : st.cache = some cached) :
    get_weather oracle now st =
      match parse_current_weather (cached.current.getD {}) now with
      | .error e =>
          ⟨.error e, st, RETRY_DELAYS.getD 0 0 + RETRY_DELAYS.getD 1 0⟩
      | .ok current =>
          ⟨.ok { current := current
                 forecast := parse_daily_forecast (cached.daily.getD {})
                 location_name := st.location_name
                 last_updated := st.cache_time.getD now },
            st, RETRY_DELAYS.getD 0 0 + RETRY_DELAYS.getD 1 0⟩ := by
  unfold get_weather
  rw [pwc_make_request_all_fail oracle now st hfail]
  simp [hc]

/-- With every attempt failing and no cached response, the safe fetch
returns an explicit `None` with an untouched state — not a crash. -/
theorem pwc_safe_fail_no_cache (oracle : Nat → AttemptResult)
    (now : Nat) (st : ServiceState)
    (hfail : ∀ j, j < MAX_RETRIES → (oracle j).isSuccess = false)
    (hc : st.cache = none) :
    get_weather_safe oracle now st = (.ok none, st) := by
  unfold get_weather_safe
  rw [pwc_get_weather_fail_no_cache oracle now st hfail hc]

/-- With a cached response held, a failing refresh never reports the
`None` (no data) outcome: it serves the cache or propagates a
`KeyError`. -/
theorem pwc_safe_fail_cached_ne_none (oracle : Nat → AttemptResult)
    (now : Nat) (st : ServiceState) (cached : RawResponse)
    (hfail : ∀ j, j < MAX_RETRIES → (oracle j).isSuccess = false)
    (hc : st.cache = some cached) :
    (get_weather_safe oracle now st).1 ≠ .ok none := by
  unfold get_weather_safe
  rw [pwc_get_weather_fail_cached oracle now st cached hfail hc]
  cases hp : parse_current_weather (cached.current.getD {}) now with
  | error e =>
      rcases pwc_parse_current_error_shape _ _ _ hp with he | he <;>
        subst he <;> simp
  | ok cw => simp

/-- When the request succeeds, the safe fetch never reports the `None`
(no data) outcome: it returns the parsed data or propagates a
`KeyError`. -/
theorem pwc_safe_request_ok_ne_none (oracle : Nat → AttemptResult)
    (now : Nat) (st : ServiceState) (data : RawResponse)
    (hok : (make_request oracle now st).result = .ok data) :
    (get_weather_safe oracle now st).1 ≠ .ok none := by
  unfold get_weather_safe get_weather
  simp only [hok]
  cases hp : parse_current_weather (data.current.getD {}) now with
  | error e =>
      rcases pwc_parse_current_error_shape _ _ _ hp with he | he <;>
        subst he <;> simp
  | ok cw => simp

/-- C5: when all 3 attempts fail with a parseable cached response from
fetch time `t`, the outcome is the cached data with `last_updated = t`
and the cache is left unmodified; with an empty cache the outcome of the
safe fetch is an explicit `None` (no data available), not a crash, and
that `None` outcome occurs exactly when exhausted retries coincide with
an empty cache. -/
theorem C5_fallback_or_unavailable :
    (∀ oracle now st cached t cw,
      (∀ j, j < MAX_RETRIES → (oracle j).isSuccess = false) →
      st.cache = some cached → st.cache_time = some t →
      parse_current_weather (cached.current.getD {}) now = .ok cw →
      (get_weather oracle now st).result = .ok
          { current := cw
            forecast := parse_daily_forecast (cached.daily.getD {})
            location_name := st.location_name
            last_updated := t } ∧
      (get_weather oracle now st).state = st) ∧
    (∀ oracle now st,
      (∀ j, j < MAX_RETRIES → (oracle j).isSuccess = false) →
      st.cache = none →
      get_weather_safe oracle now st = (.ok none, st)) ∧
    (∀ oracle now st,
      (get_weather_safe oracle now st).1 = .ok none ↔
        ((∀ j, j < MAX_RETRIES → (oracle j).isSuccess = false) ∧
          st.cache = none)) := by
  refine ⟨?_, ?_, ?_⟩
  · intro oracle now st cached t cw hfail hc hct hp
    rw [pwc_get_weather_fail_cached oracle now st cached hfail hc, hp, hct]
    exact ⟨rfl, rfl⟩
  · intro oracle now st hfail hc
    exact pwc_safe_fail_no_cache oracle now st hfail hc
  · intro oracle now st
    constructor
    · intro h
      by_cases hall : ∀ j, j < MAX_RETRIES → (oracle j).isSuccess = false
      · refine ⟨hall, ?_⟩
        cases hc : st.cache with
        | none => rfl
        | some cached =>
            exact absurd h
              (pwc_safe_fail_cached_ne_none oracle now st cached hall hc)
      · exfalso
        obtain ⟨data, hok⟩ := pwc_make_request_ok_exists oracle now st hall
        exact pwc_safe_request_ok_ne_none oracle now st data hok h
    · rintro ⟨hall, hc⟩
      rw [pwc_safe_fail_no_cache oracle now st hall hc]

/-- Witness for C5: a cached response from time 40 is served with
`last_updated = 40` and an untouched cache when every attempt fails;
with an empty cache the safe fetch yields `None`. -/
theorem C5_fallback_or_unavailable_witness :
    (get_weather exFailOracle 100 exStateCached).result
        = .ok { current := exCurrentAt 100
                forecast := exForecast
                location_name := "Home"
                last_updated := 40 } ∧
    (get_weather exFailOracle 100 exStateCached).state = exStateCached ∧
    (get_weather_safe exFailOracle 77 exStateEmpty).1 = .ok none := by
  have h1 := C5_fallback_or_unavailable.1 exFailOracle 100 exStateCached
    exGoodData 40 (exCurrentAt 100) (by decide) rfl rfl rfl
  have h2 := C5_fallback_or_unavailable.2.1 exFailOracle 77 exStateEmpty
    (by decide) rfl
  exact ⟨h1.1, h1.2, by rw [h2]⟩

/-- C6: the current-conditions parser substitutes `None` for a missing
humidity without raising, but a payload missing `temperature_2m` or
`apparent_temperature` raises a bare `KeyError` — not the service's
typed error — which escapes even `get_weather_safe` (documented to
raise no exceptions) and so crashes the refresh cycle instead of being
handled inside it. -/
theorem C6_required_field_keyerror_escapes :
    parse_current_weather ⟨none, some 68, none, none, none⟩ 5
        = .error (.keyError "temperature_2m") ∧
    parse_current_weather ⟨some 70, none, none, none, none⟩ 5
        = .error (.keyError "apparent_temperature") ∧
    parse_current_weather ⟨some 70, some 68, some 2, none, some 1⟩ 5
        = .ok { temperature := 70, feels_like := 68, condition := .cloudy,
                weather_code := 2, humidity := none, timestamp := 5,
                is_day := true } ∧
    (get_weather_safe exBadOracle 5 exStateEmpty).1
        = .error (.keyError "temperature_2m") :=
  ⟨rfl, rfl, rfl, rfl⟩

/-- C7 counterexample: a fetch whose payload lacks the required
`temperature_2m` field still overwrites the cache (the store happens in
`_make_request` before parsing), so after the cycle the cache holds data
from a cycle whose parse did not succeed. -/
theorem C7_counterexample_parse_failure_overwrites_cache :
    (get_weather exBadOracle 7 exStateEmpty).result
        = .error (.keyError "temperature_2m") ∧
    (get_weather exBadOracle 7 exStateEmpty).state.cache = some exBadData ∧
    (get_weather exBadOracle 7 exStateEmpty).state.cache_time = some 7 :=
  ⟨rfl, rfl, rfl⟩

/-- C7 (amended): the cached content and its timestamp are replaced
exactly on a successful fetch (HTTP success and JSON decode), before
parsing; no failure path and no expiry ever changes the cache, but a
cycle whose parse fails has already overwritten the cache with the
fetched payload. -/
theorem C7_cache_replaced_exactly_on_fetch_success :
    (∀ oracle now st,
      (∀ j, j < MAX_RETRIES → (oracle j).isSuccess = false) →
      (get_weather oracle now st).state = st) ∧
    (∀ oracle now st k data, k < MAX_RETRIES →
      (∀ j, j < k → (oracle j).isSuccess = false) →
      oracle k = .success data →
      (make_request oracle now st).state
          = { st with cache := some data, cache_time := some now }) ∧
    (∀ oracle now st,
      (get_weather oracle now st).state
          = (make_request oracle now st).state) := by
  refine ⟨?_, ?_, pwc_get_weather_state⟩
  · intro oracle now st hfail
    cases hc : st.cache with
    | none => rw [pwc_get_weather_fail_no_cache oracle now st hfail hc]
    | some cached =>
        rw [pwc_get_weather_fail_cached oracle now st cached hfail hc]
        cases parse_current_weather (cached.current.getD {}) now <;> rfl
  · intro oracle now st k data hk hf hs
    rw [pwc_make_request_success oracle now st k data hk hf hs]

/-- Witness for C7: a fully-failed cycle leaves the cached state intact,
and a success on the third attempt replaces the cache with the new
payload stamped at the fetch time. -/
theorem C7_cache_replaced_witness :
    (get_weather exFailOracle 100 exStateCached).state = exStateCached ∧
    (make_request exRetryOracle 100 exStateEmpty).state
        = { cache := some exGoodData, cache_time := some 100,
            location_name := "" } :=
  ⟨C7_cache_replaced_exactly_on_fetch_success.1 exFailOracle 100
      exStateCached (by decide),
   C7_cache_replaced_exactly_on_fetch_success.2.1 exRetryOracle 100
      exStateEmpty 2 exGoodData (by decide) (by decide) rfl⟩

/-- C8 counterexample: two fallback reads of the same cached response at
clock times 10 and 20 return snapshots whose current-conditions capture
timestamps are 10 and 20 respectively — not bit-identical. -/
theorem C8_counterexample_reads_not_bit_identical :
    (get_weather exFailOracle 10 exStateCached).result.toOption.map
        (fun wd => wd.current.timestamp) = some 10 ∧
    (get_weather exFailOracle 20 exStateCached).result.toOption.map
        (fun wd => wd.current.timestamp) = some 20 ∧
    (get_weather exFailOracle 10 exStateCached).result
      ≠ (get_weather exFailOracle 20 exStateCached).result := by
  refine ⟨rfl, rfl, fun h => ?_⟩
  have h1 : (get_weather exFailOracle 10 exStateCached).result.toOption.map
      (fun wd => wd.current.timestamp) = some 10 := rfl
  have h2 : (get_weather exFailOracle 20 exStateCached).result.toOption.map
      (fun wd => wd.current.timestamp) = some 20 := rfl
  rw [h] at h1
  exact absurd (h1.symm.trans h2) (by simp)

/-- C8 (amended): two reads of the cached data with no intervening store
return snapshots equal in every field — including `last_updated`, the
cached fetch time — except the current-conditions capture timestamp,
which is stamped with each read's own clock; reads at the same clock
instant are bit-identical, and a failing read leaves the state
untouched. -/
theorem C8_reads_idempotent_up_to_capture_time
    (oracle : Nat → AttemptResult) (now1 now2 : Nat) (st : ServiceState)
    (hfail : ∀ j, j < MAX_RETRIES → (oracle j).isSuccess = false)
    (hct : st.cache = none ∨ st.cache_time.isSome = true) :
    ((get_weather oracle now1 st).result.toOption.map eraseCaptureTime
        = (get_weather oracle now2 st).result.toOption.map eraseCaptureTime) ∧
    (get_weather oracle now1 st).state = st ∧
    (now1 = now2 →
      (get_weather oracle now1 st).result
          = (get_weather oracle now2 st).result) := by
  refine ⟨?_, ?_, fun heq => by rw [heq]⟩
  · cases hc : st.cache with
    | none =>
        rw [pwc_get_weather_fail_no_cache oracle now1 st hfail hc,
          pwc_get_weather_fail_no_cache oracle now2 st hfail hc]
    | some cached =>
        have hts : st.cache_time.isSome = true := by
          rcases hct with h | h
        -- a held cache contradicts the empty-cache alternative
          · rw [hc] at h
            exact Option.noConfusion h
          · exact h
        obtain ⟨t, ht⟩ := Option.isSome_iff_exists.mp hts
        rw [pwc_get_weather_fail_cached oracle now1 st cached hfail hc,
          pwc_get_weather_fail_cached oracle now2 st cached hfail hc]
        cases hp : parse_current_weather (cached.current.getD {}) now1 with
        | error e => rw [pwc_parse_current_error_time _ now1 now2 e hp]
        | ok cw =>
            rw [pwc_parse_current_ok_time _ now1 now2 cw hp]
            simp [eraseCaptureTime, ht, Except.toOption]
  · cases hc : st.cache with
    | none => rw [pwc_get_weather_fail_no_cache oracle now1 st hfail hc]
    | some cached =>
        rw [pwc_get_weather_fail_cached oracle now1 st cached hfail hc]
        cases parse_current_weather (cached.current.getD {}) now1 <;> rfl

/-- Witness for C8: reads at times 10 and 20 agree once the capture
timestamp is erased, and the read leaves the cached state unchanged. -/
theorem C8_reads_idempotent_witness :
    ((get_weather exFailOracle 10 exStateCached).result.toOption.map
        eraseCaptureTime
      = (get_weather exFailOracle 20 exStateCached).result.toOption.map
        eraseCaptureTime) ∧
    (get_weather exFailOracle 10 exStateCached).state = exStateCached :=
  ⟨(C8_reads_idempotent_up_to_capture_time exFailOracle 10 20 exStateCached
      (by decide) (Or.inr rfl)).1,
   (C8_reads_idempotent_up_to_capture_time exFailOracle 10 20 exStateCached
      (by decide) (Or.inr rfl)).2.1⟩

/-- C10: when the payload omits the weather code the parser substitutes
code 0, classifying Sunny, and when it omits the is-day flag it defaults
to day; any current payload carrying both required temperature fields
parses successfully with these defaults. -/
theorem C10_parse_current_defaults (cur : CurrentPayload) (now : Nat)
    (t f : Int) (hT : cur.temperature_2m = some t)
    (hF : cur.apparent_temperature = some f) :
    (∃ cw, parse_current_weather cur now = .ok cw) ∧
    (cur.weather_code = none →
      (parse_current_weather cur now).toOption.map (fun cw => cw.condition)
          = some .sunny ∧
      (parse_current_weather cur now).toOption.map (fun cw => cw.weather_code)
          = some 0) ∧
    (cur.is_day = none →
      (parse_current_weather cur now).toOption.map (fun cw => cw.is_day)
          = some true) := by
  unfold parse_current_weather
  rw [hT, hF]
  refine ⟨⟨_, rfl⟩, ?_, ?_⟩
  · intro h
    rw [h]
    exact ⟨rfl, rfl⟩
  · intro h
    rw [h]
    rfl

/-- Witness for C10: a payload with only the two required temperatures
parses successfully as Sunny (code 0), daytime. -/
theorem C10_parse_current_defaults_witness :
    (∃ cw, parse_current_weather ⟨some 70, some 68, none, none, none⟩ 9
        = .ok cw) ∧
    (parse_current_weather ⟨some 70, some 68, none, none, none⟩ 9).toOption.map
        (fun cw => cw.condition) = some .sunny ∧
    (parse_current_weather ⟨some 70, some 68, none, none, none⟩ 9).toOption.map
        (fun cw => cw.is_day) = some true := by
  have h := C10_parse_current_defaults ⟨some 70, some 68, none, none, none⟩ 9
    70 68 rfl rfl
  exact ⟨h.1, (h.2.1 rfl).1, h.2.2 rfl⟩

/-- One `run_fetch` invokes the forecast client exactly once. -/
theorem pwc_run_fetch_calls (env : Env) (svc : ServiceState)
    (app : AppState) : (run_fetch env svc app).fetch_calls = 1 := by
  simp only [run_fetch]
  cases h : (get_weather_safe env.oracle env.now svc).1 with
  | error e => simp [h]
  | ok owd => cases owd <;> simp [h]

/-- `run_fetch` re-arms the timer exactly when no exception escaped. -/
theorem pwc_run_fetch_armed_iff (env : Env) (svc : ServiceState)
    (app : AppState) :
    (run_fetch env svc app).armed = 1 ↔
      (run_fetch env svc app).crashed = none := by
  simp only [run_fetch]
  cases h : (get_weather_safe env.oracle env.now svc).1 with
  | error e => simp [h]
  | ok owd => cases owd <;> simp [h]

/-- `run_fetch` adds at most one pending timer job. -/
theorem pwc_run_fetch_pending (env : Env) (svc : ServiceState)
    (app : AppState) :
    (run_fetch env svc app).state.pending_jobs ≤ app.pending_jobs + 1 := by
  simp only [run_fetch]
  cases h : (get_weather_safe env.oracle env.now svc).1 with
  | error e => simp [h]
  | ok owd => cases owd <;> simp [h]

/-- One `_update_weather` run invokes the forecast client at most once. -/
theorem pwc_update_weather_fetch_le (env : Env) (app : AppState) :
    (update_weather env app).fetch_calls ≤ 1 := by
  cases hws : app.weather_service with
  | none =>
      by_cases hi : env.initOk
      · simp [update_weather, hws, hi, pwc_run_fetch_calls]
      · simp [update_weather, hws, hi]
  | some svc => simp [update_weather, hws, pwc_run_fetch_calls]

/-- An `_update_weather` run that completes without an escaping
exception arms exactly one next timer job, in every outcome. -/
theorem pwc_update_weather_armed (env : Env) (app : AppState)
    (h : (update_weather env app).crashed = none) :
    (update_weather env app).armed = 1 := by
  cases hws : app.weather_service with
  | none =>
      by_cases hi : env.initOk
      · rw [update_weather, hws] at h ⊢
        simp only [hi, if_true] at h ⊢
        exact (pwc_run_fetch_armed_iff env env.initState app).mpr h
      · simp [update_weather, hws, hi]
  | some svc =>
      rw [update_weather, hws] at h ⊢
      exact (pwc_run_fetch_armed_iff env svc app).mpr h

/-- One `_update_weather` run adds at most one pending timer job. -/
theorem pwc_update_weather_pending (env : Env) (app : AppState) :
    (update_weather env app).state.pending_jobs ≤ app.pending_jobs + 1 := by
  cases hws : app.weather_service with
  | none =>
      by_cases hi : env.initOk
      · simpa [update_weather, hws, hi] using
          pwc_run_fetch_pending env env.initState app
      · simp [update_weather, hws, hi]
  | some svc =>
      simpa [update_weather, hws] using pwc_run_fetch_pending env svc app

/-- Along any run of the event loop, at most one weather-update timer
job is ever pending: each fire consumes its job and arms at most one. -/
theorem pwc_event_loop_pending (envs : List Env) :
    ∀ app : AppState, app.pending_jobs ≤ 1 →
      (event_loop envs app).pending_jobs ≤ 1 := by
  induction envs with
  | nil =>
      intro app h
      exact h
  | cons env rest ih =>
      intro app h
      simp only [event_loop]
      by_cases hz : app.pending_jobs = 0
      · rw [if_pos hz]
        exact ih app h
      · rw [if_neg hz]
        apply ih
        have hone : app.pending_jobs = 1 := by omega
        have hp := pwc_update_weather_pending env
          { app with pending_jobs := app.pending_jobs - 1 }
        simp only [fire_timer]
        simp only [hone] at hp ⊢
        omega

/-- C9: in the single-threaded Tk event loop, timer callbacks run to
completion one at a time, so a fire that comes due during a fetch is
dispatched only after it: each `_update_weather` run invokes the
forecast client at most once, every run that completes re-arms exactly
one next timer, and at most one update job is ever pending, so no two
fetches are ever in flight together. -/
theorem C9_serialized_fetch_and_rearm :
    (∀ env app, (update_weather env app).fetch_calls ≤ 1) ∧
    (∀ env app, (update_weather env app).crashed = none →
        (update_weather env app).armed = 1) ∧
    (∀ envs app, app.pending_jobs ≤ 1 →
        (event_loop envs app).pending_jobs ≤ 1) :=
  ⟨pwc_update_weather_fetch_le, pwc_update_weather_armed,
   fun envs => pwc_event_loop_pending envs⟩

/-- Witness for C9 on a concrete environment and app state. -/
theorem C9_serialized_fetch_and_rearm_witness :
    (update_weather exEnv exApp).fetch_calls ≤ 1 ∧
    (update_weather exEnv exApp).armed = 1 ∧
    (event_loop [exEnv] exApp).pending_jobs ≤ 1 :=
  ⟨C9_serialized_fetch_and_rearm.1 exEnv exApp,
   C9_serialized_fetch_and_rearm.2.1 exEnv exApp rfl,
   C9_serialized_fetch_and_rearm.2.2 [exEnv] exApp (by decide)⟩
